import Mathlib

/-!
Verification of the Chat_Float RAG pipeline (scripts/rag_pipeline.py,
scripts/llm_agent.py, scripts/mcp_client.py) against its specification.

The Python code is shallowly embedded: pure fragments become Lean
functions, Python floats become `ℚ`, Python exceptions become
`Except String`, and the external effects (the completion service, the
HTTP backends, `re.search` on the raw query text) are abstracted as
explicit parameters holding the outcome of the effect.  Every
definition mirrors the corresponding Python function line by line.
-/

/-- `QueryIntent` enum from rag_pipeline.py. -/
inductive QueryIntent where
  | sql_query
  | semantic_search
  | hybrid
  | unknown
deriving DecidableEq, Repr

/-- `location` sub-dict of an `ARGOResult` (latitude/longitude). -/
structure Location where
  latitude : ℚ
  longitude : ℚ
deriving DecidableEq, Repr, Inhabited

/-- `variables.temperature` sub-dict of an `ARGOResult`. -/
structure TempVars where
  surface : Option ℚ
  thermocline_depth : Option ℚ
deriving DecidableEq, Repr, Inhabited

/-- `variables.salinity` sub-dict of an `ARGOResult`. -/
structure SalVars where
  surface : Option ℚ
  min_depth : Option ℚ
  max_depth : Option ℚ
deriving DecidableEq, Repr, Inhabited

/-- `variables` dict of an `ARGOResult`. -/
structure ProfileVars where
  temperature : TempVars
  salinity : SalVars
  stratification : Option ℚ
deriving DecidableEq, Repr, Inhabited

/-- `metadata` dict of an `ARGOResult` (as built by the two converters). -/
structure ResultMeta where
  quality_flag : String
  data_mode : String
  source : String
deriving DecidableEq, Repr, Inhabited

/-- The `ARGOResult` dataclass from rag_pipeline.py.  The Python field
`variables` is spelled `vars` here because `variables` is reserved in
Lean 4. -/
structure ARGOResult where
  id : String
  float_id : String
  cycle_number : ℤ
  location : Location
  timestamp : String
  vars : ProfileVars
  metadata : ResultMeta
  similarity_score : Option ℚ := none
  rag_context : Option String := none
deriving DecidableEq, Repr, Inhabited

/-- The `QueryContext` dataclass.  `extracted_entities` is kept as a
plain key/value listing since no verified property inspects it. -/
structure QueryContext where
  original_query : String
  intent : QueryIntent
  confidence : ℚ
  extracted_entities : List (String × String) := []
  sql_query : Option String := none
  semantic_query : Option String := none
deriving DecidableEq, Repr

/- ----------------------------------------------------------------
IntentClassifier (rag_pipeline.py lines 78-192)
---------------------------------------------------------------- -/

/-- `self.sql_patterns` from `IntentClassifier.__init__`, verbatim
(regex source text; braces and quotes written with escapes). -/
def sqlPatterns : List String :=
  [ "\\b(select|where|group by|order by|count|sum|avg|max|min)\\b"
  , "\\b(temperature|salinity|pressure|depth)\\s*(>|<|=|>=|<=)\\s*\\d+"
  , "\\b(latitude|longitude)\\s*(between|>|<|=)\\s*[-\\d.]+"
  , "\\bdate\\s*(between|>|<|=)\\s*[\x27\"]\\d\x7b4\x7d-\\d\x7b2\x7d-\\d\x7b2\x7d"
  , "\\b(profiles?|floats?|cycles?)\\s*(with|having|where)" ]

/-- `self.semantic_patterns` from `IntentClassifier.__init__`, verbatim. -/
def semanticPatterns : List String :=
  [ "\\b(find|search|show|get|retrieve)\\s+.*\\b(like|similar|related)"
  , "\\b(warm|cold|hot|cool)\\s+(water|ocean|sea)"
  , "\\b(high|low|deep|shallow)\\s+(salinity|temperature|pressure)"
  , "\\b(tropical|arctic|polar|equatorial|subtropical)"
  , "\\b(upwelling|downwelling|current|gyre|front)"
  , "\\b(seasonal|winter|summer|spring|fall|autumn)" ]

/-- A user query, abstracted by its pattern-match oracle: for a pattern
string `p`, `matchesPattern p` is the truth of
`re.search(p, query.lower())` on the underlying text. -/
structure Query where
  matchesPattern : String → Bool

/-- `sql_score = sum(1 for pattern in self.sql_patterns if re.search(pattern, query.lower()))`. -/
def sqlScore (q : Query) : ℕ :=
  (sqlPatterns.filter q.matchesPattern).length

/-- `semantic_score`, analogously over `self.semantic_patterns`. -/
def semanticScore (q : Query) : ℕ :=
  (semanticPatterns.filter q.matchesPattern).length

/-- Outcome of the completion call made by `IntentClassifier._llm_classify`:
the call can raise in transport, return content that is not JSON, or
return a JSON object whose `intent` / `confidence` keys may be absent. -/
inductive LLMReply where
  | transportError
  | badJson
  | json (intent : Option String) (confidence : Option ℚ)
deriving DecidableEq, Repr

/-- The `intent_map` lookup with default `QueryIntent.UNKNOWN` in
`_llm_classify`. -/
def intentFromString (s : String) : QueryIntent :=
  if s = "sql" then QueryIntent.sql_query
  else if s = "semantic" then QueryIntent.semantic_search
  else if s = "hybrid" then QueryIntent.hybrid
  else QueryIntent.unknown

/-- `IntentClassifier._llm_classify` (rag_pipeline.py lines 154-192):
on any exception (transport failure, or `json.loads` failing on the
content) return `(SEMANTIC_SEARCH, 0.5)`; otherwise read `intent`
(default `"unknown"`) and `confidence` (default `0.5`) from the parsed
object and map the intent string. -/
def llmClassify : LLMReply → QueryIntent × ℚ
  | LLMReply.transportError => (QueryIntent.semantic_search, 0.5)
  | LLMReply.badJson => (QueryIntent.semantic_search, 0.5)
  | LLMReply.json intent confidence =>
      (intentFromString (intent.getD "unknown"), confidence.getD 0.5)

/-- Result of `classify_intent`, with an explicit count of how many
times the `_llm_classify` fallback was invoked. -/
structure ClassifyResult where
  intent : QueryIntent
  confidence : ℚ
  llmCalls : ℕ
deriving DecidableEq, Repr

/-- `IntentClassifier.classify_intent` (rag_pipeline.py lines 103-129),
restricted to the intent/confidence decision.  `reply` is the outcome
the completion service would produce if `_llm_classify` runs.
`abs(sql_score - semantic_score) <= 1` escalates to the model,
otherwise the higher-scoring side wins with confidence 0.8. -/
def classifyIntent (q : Query) (reply : LLMReply) : ClassifyResult :=
  let sql_score := sqlScore q
  let semantic_score := semanticScore q
  if ((sql_score : ℤ) - (semantic_score : ℤ)).natAbs ≤ 1 then
    { intent := (llmClassify reply).1, confidence := (llmClassify reply).2, llmCalls := 1 }
  else if semantic_score < sql_score then
    { intent := QueryIntent.sql_query, confidence := 0.8, llmCalls := 0 }
  else
    { intent := QueryIntent.semantic_search, confidence := 0.8, llmCalls := 0 }

/- ----------------------------------------------------------------
Result conversion (rag_pipeline.py lines 443-532)
---------------------------------------------------------------- -/

/-- A raw backend profile dict: every field is optional, matching the
`profile.get(...)` accesses of the two converters. -/
structure RawProfile where
  id : Option String := none
  platform_number : Option String := none
  cycle_number : Option ℤ := none
  latitude : Option ℚ := none
  longitude : Option ℚ := none
  date : Option String := none
  surface_temp : Option ℚ := none
  thermocline_depth : Option ℚ := none
  surface_sal : Option ℚ := none
  salinity_min_depth : Option ℚ := none
  salinity_max_depth : Option ℚ := none
  mean_stratification : Option ℚ := none
  quality_flag : Option String := none
  data_mode : Option String := none
deriving DecidableEq, Repr, Inhabited

/-- Zero-padded three-digit rendering of `n < 1000`. -/
def pad3 (n : ℕ) : String :=
  if n < 10 then "00" ++ toString n
  else if n < 100 then "0" ++ toString n
  else toString n

/-- Fixed-point rendering of a rational with three decimals, modelling
the Python format `f"...:.3f"` (rounding of an exact half is abstracted
by `round`). -/
def formatFixed3 (q : ℚ) : String :=
  let n : ℤ := round (q * 1000)
  let sign := if n < 0 then "-" else ""
  sign ++ toString (n.natAbs / 1000) ++ "." ++ pad3 (n.natAbs % 1000)

/-- The `ARGOResult(...)` construction shared by `_convert_sql_results`
and `_convert_semantic_results`: `.get` with defaults for identifiers
and location, raw optional values for the physical variables. -/
def profileToResult (source : String) (p : RawProfile)
    (similarity_score : Option ℚ) (rag_context : Option String) : ARGOResult :=
  { id := p.id.getD ""
    float_id := p.platform_number.getD ""
    cycle_number := p.cycle_number.getD 0
    location := { latitude := p.latitude.getD 0, longitude := p.longitude.getD 0 }
    timestamp := p.date.getD ""
    vars :=
      { temperature := { surface := p.surface_temp, thermocline_depth := p.thermocline_depth }
        salinity :=
          { surface := p.surface_sal
            min_depth := p.salinity_min_depth
            max_depth := p.salinity_max_depth }
        stratification := p.mean_stratification }
    metadata :=
      { quality_flag := p.quality_flag.getD ""
        data_mode := p.data_mode.getD ""
        source := source }
    similarity_score := similarity_score
    rag_context := rag_context }

/-- `RAGPipeline._convert_sql_results` on an already-decoded payload. -/
def convertSqlResults (profiles : List RawProfile) : List ARGOResult :=
  profiles.map (fun p => profileToResult "sql_query" p none none)

/-- The `for i, profile in enumerate(search_results)` loop of
`_convert_semantic_results`, carrying the running index `i`:
`similarity = similarities[i] if i < len(similarities) else 0.0`. -/
def convertSemanticFrom (similarities : List ℚ) (i : ℕ) :
    List RawProfile → List ARGOResult
  | [] => []
  | p :: rest =>
      let similarity := similarities.getD i 0
      profileToResult "semantic_search" p (some similarity)
          (some ("Semantic similarity: " ++ formatFixed3 similarity))
        :: convertSemanticFrom similarities (i + 1) rest

/-- `RAGPipeline._convert_semantic_results` (rag_pipeline.py lines
486-532) on an already-decoded payload (`profiles` and its parallel
`similarities` sequence). -/
def convertSemanticResults (profiles : List RawProfile) (similarities : List ℚ) :
    List ARGOResult :=
  convertSemanticFrom similarities 0 profiles

/- ----------------------------------------------------------------
Hybrid merge (rag_pipeline.py lines 417-441)
---------------------------------------------------------------- -/

/-- An insertion-ordered dict keyed by record id, as Python's `dict`
(`combined_results` in `_execute_hybrid_mode`). -/
abbrev ResultDict := List (String × ARGOResult)

/-- The keys of the dict, in insertion order. -/
def dictKeys (m : ResultDict) : List String := m.map Prod.fst

/-- Python dict assignment `m[k] = v`: replace in place when the key
exists (keeping its position), append otherwise. -/
def dictInsert (m : ResultDict) (k : String) (v : ARGOResult) : ResultDict :=
  if k ∈ dictKeys m then m.map (fun p => if p.1 = k then (k, v) else p)
  else m ++ [(k, v)]

/-- The overlay performed when a semantic record's id is already
present: only `similarity_score` and `rag_context` are copied onto the
existing record. -/
def applyOverlay (v r : ARGOResult) : ARGOResult :=
  { v with similarity_score := r.similarity_score, rag_context := r.rag_context }

/-- One iteration of the semantic-results loop of
`_execute_hybrid_mode`: overlay if `result.id in combined_results`,
insert as new otherwise. -/
def semInsert (m : ResultDict) (r : ARGOResult) : ResultDict :=
  if r.id ∈ dictKeys m then
    m.map (fun p => if p.1 = r.id then (p.1, applyOverlay p.2 r) else p)
  else m ++ [(r.id, r)]

/-- `RAGPipeline._execute_hybrid_mode` merge step (rag_pipeline.py
lines 426-441): insert all SQL results, then fold the semantic results
through the overlay/insert step, and return
`list(combined_results.values())` (Python dicts preserve insertion
order). -/
def executeHybridMode (sqlResults semanticResults : List ARGOResult) : List ARGOResult :=
  (semanticResults.foldl semInsert
    (sqlResults.foldl (fun m r => dictInsert m r.id r) [])).map Prod.snd

/-- The record an SQL-mode record `s` becomes after the semantic pass:
overlaid by the (first) semantic record sharing its id, if any. -/
def overlayFor (semanticResults : List ARGOResult) (s : ARGOResult) : ARGOResult :=
  match semanticResults.find? (fun r => r.id == s.id) with
  | some r => applyOverlay s r
  | none => s

/-- The semantic records whose ids are new relative to the SQL results
(these are appended after the SQL records). -/
def semOnly (sqlResults semanticResults : List ARGOResult) : List ARGOResult :=
  semanticResults.filter (fun r => decide (r.id ∉ sqlResults.map ARGOResult.id))

/- ----------------------------------------------------------------
Merged output (rag_pipeline.py lines 534-580)
---------------------------------------------------------------- -/

/-- min/max/mean triple of `variable_ranges`. -/
structure VarStats where
  min : Option ℚ
  max : Option ℚ
  mean : Option ℚ
deriving DecidableEq, Repr

/-- The `results_summary` part of the merged output. -/
structure ResultsSummary where
  total_profiles : ℕ
  lat_range : ℚ × ℚ
  lon_range : ℚ × ℚ
  temperature : VarStats
  salinity : VarStats
deriving DecidableEq, Repr

/-- The merged structured JSON built by `_merge_results`. -/
structure MergedData where
  query_context : QueryContext
  results_summary : ResultsSummary
  profiles : List ARGOResult
deriving DecidableEq, Repr

/-- `RAGPipeline._merge_results` (rag_pipeline.py lines 534-580):
`[min(l), max(l)] if l else [0, 0]` for the geographic bounds, and
min/max/`sum/len` over the non-missing surface values, `None` when no
values are present. -/
def mergeResults (results : List ARGOResult) (context : QueryContext) : MergedData :=
  let latitudes := results.map (fun r => r.location.latitude)
  let longitudes := results.map (fun r => r.location.longitude)
  let temps := results.filterMap (fun r => r.vars.temperature.surface)
  let salts := results.filterMap (fun r => r.vars.salinity.surface)
  { query_context := context
    results_summary :=
      { total_profiles := results.length
        lat_range :=
          match latitudes.min?, latitudes.max? with
          | some lo, some hi => (lo, hi)
          | _, _ => (0, 0)
        lon_range :=
          match longitudes.min?, longitudes.max? with
          | some lo, some hi => (lo, hi)
          | _, _ => (0, 0)
        temperature :=
          { min := temps.min?
            max := temps.max?
            mean := if temps.isEmpty then none else some (temps.sum / temps.length) }
        salinity :=
          { min := salts.min?
            max := salts.max?
            mean := if salts.isEmpty then none else some (salts.sum / salts.length) } }
    profiles := results }

/- ----------------------------------------------------------------
Tool-call extraction (llm_agent.py lines 281-300)
---------------------------------------------------------------- -/

/-- A value occurring in a tool call's `arguments` mapping. -/
inductive ArgVal where
  | num (q : ℚ)
  | str (s : String)
deriving DecidableEq, Repr

/-- The arguments mapping of a tool call. -/
abbrev Args := List (String × ArgVal)

/-- The `MCPToolCall` dataclass from llm_agent.py. -/
structure MCPToolCall where
  tool_name : String
  arguments : Args
  call_id : String
deriving DecidableEq, Repr

/-- The JSON object a `TOOL_CALL:` regex match parses to, as accessed
by `_extract_tool_calls`: `call_data["tool"]`, `call_data["arguments"]`
and `call_data.get("call_id", ...)`; a key may be absent. -/
structure ToolCallJson where
  tool : Option String
  arguments : Option Args
  call_id : Option String
deriving DecidableEq, Repr

/-- One regex match of `TOOL_CALL:\s*(...)` in the model output:
`none` when `json.loads` fails on the matched text (the
`json.JSONDecodeError` branch), `some obj` when it parses. -/
abbrev ToolCallMatch := Option ToolCallJson

/-- The `for i, match in enumerate(matches)` loop of
`_extract_tool_calls`, carrying the running match index `i`.  A parse
failure is logged and skipped; a missing `tool` or `arguments` key
raises `KeyError`, which no handler in the function catches (only
`json.JSONDecodeError` is caught), so it aborts the whole extraction. -/
def extractFrom (i : ℕ) : List ToolCallMatch → Except String (List MCPToolCall)
  | [] => Except.ok []
  | none :: rest => extractFrom (i + 1) rest
  | some obj :: rest =>
      match obj.tool with
      | none => Except.error "KeyError: tool"
      | some t =>
          match obj.arguments with
          | none => Except.error "KeyError: arguments"
          | some a =>
              (extractFrom (i + 1) rest).map
                (fun calls =>
                  { tool_name := t
                    arguments := a
                    call_id := obj.call_id.getD ("call_" ++ toString i) } :: calls)

/-- `ARGOLLMAgent._extract_tool_calls` on the ordered list of regex
matches found in the response text. -/
def extractToolCalls (ms : List ToolCallMatch) : Except String (List MCPToolCall) :=
  extractFrom 0 ms

/-- Does this match carry both required keys?  (`true` also for parse
failures, which are skipped rather than raising.) -/
def noKeyError : ToolCallMatch → Bool
  | none => true
  | some obj => obj.tool.isSome && obj.arguments.isSome

/-- The calls `_extract_tool_calls` is expected to produce: the
well-formed matches in order of appearance, a call without an explicit
id getting `call_i` where `i` is its index among all matches. -/
def wellFormedFrom (i : ℕ) : List ToolCallMatch → List MCPToolCall
  | [] => []
  | none :: rest => wellFormedFrom (i + 1) rest
  | some obj :: rest =>
      match obj.tool, obj.arguments with
      | some t, some a =>
          { tool_name := t
            arguments := a
            call_id := obj.call_id.getD ("call_" ++ toString i) } :: wellFormedFrom (i + 1) rest
      | _, _ => wellFormedFrom (i + 1) rest

/-- `wellFormedFrom` starting at index 0. -/
def wellFormedCalls (ms : List ToolCallMatch) : List MCPToolCall :=
  wellFormedFrom 0 ms

/- ----------------------------------------------------------------
Tool dispatch (llm_agent.py lines 261-319 and the four simulators)
---------------------------------------------------------------- -/

/-- The data payload of a simulated tool response, keeping the parts
that depend on the call's arguments. -/
inductive SimData where
  | queryData
  | retrieveData (query : ArgVal)
  | locationData (profileLat profileLon lat lon : ℚ) (radius : ArgVal)
  | dateData (startDate endDate : ArgVal)
deriving DecidableEq, Repr

/-- The `MCPToolResponse` dataclass from llm_agent.py. -/
structure MCPToolResponse where
  call_id : String
  success : Bool
  data : Option SimData := none
  error : Option String := none
deriving DecidableEq, Repr

/-- `args["k"]` / `args.get("k", d)` on the arguments mapping. -/
def lookupArg (args : Args) (k : String) : Option ArgVal :=
  args.lookup k

/-- `_simulate_query_argo`: returns the fixed two-profile sample with
`success=True`; the call's arguments are never read. -/
def simulateQueryArgo (tc : MCPToolCall) : MCPToolResponse :=
  { call_id := tc.call_id, success := true, data := some SimData.queryData }

/-- `_simulate_retrieve_argo`: success, echoing
`tool_call.arguments.get("query", "")` in the metadata. -/
def simulateRetrieveArgo (tc : MCPToolCall) : MCPToolResponse :=
  { call_id := tc.call_id
    success := true
    data := some (SimData.retrieveData ((lookupArg tc.arguments "query").getD (ArgVal.str ""))) }

/-- `_simulate_location_search`: reads `args["latitude"]` (then adds
0.1) and `args["longitude"]` (then subtracts 0.1) with no guard — a
missing key raises `KeyError`, a non-numeric value raises `TypeError`;
`radius` defaults to 100 via `.get`. -/
def simulateLocationSearch (tc : MCPToolCall) : Except String MCPToolResponse :=
  match lookupArg tc.arguments "latitude" with
  | none => Except.error "KeyError: latitude"
  | some (ArgVal.str _) => Except.error "TypeError: latitude"
  | some (ArgVal.num lat) =>
      match lookupArg tc.arguments "longitude" with
      | none => Except.error "KeyError: longitude"
      | some (ArgVal.str _) => Except.error "TypeError: longitude"
      | some (ArgVal.num lon) =>
          Except.ok
            { call_id := tc.call_id
              success := true
              data := some (SimData.locationData (lat + 0.1) (lon - 0.1) lat lon
                ((lookupArg tc.arguments "radius").getD (ArgVal.num 100))) }

/-- `_simulate_date_range_search`: reads `args["startDate"]` and
`args["endDate"]` with no guard — a missing key raises `KeyError`. -/
def simulateDateRangeSearch (tc : MCPToolCall) : Except String MCPToolResponse :=
  match lookupArg tc.arguments "startDate" with
  | none => Except.error "KeyError: startDate"
  | some s =>
      match lookupArg tc.arguments "endDate" with
      | none => Except.error "KeyError: endDate"
      | some e =>
          Except.ok
            { call_id := tc.call_id
              success := true
              data := some (SimData.dateData s e) }

/-- `ARGOLLMAgent._simulate_mcp_call` (llm_agent.py lines 302-319):
route on the tool name; an unknown tool yields a failed response; the
routed simulators may raise, and nothing here catches that. -/
def simulateMcpCall (tc : MCPToolCall) : Except String MCPToolResponse :=
  if tc.tool_name = "queryARGO" then Except.ok (simulateQueryArgo tc)
  else if tc.tool_name = "retrieveARGO" then Except.ok (simulateRetrieveArgo tc)
  else if tc.tool_name = "getARGOByLocation" then simulateLocationSearch tc
  else if tc.tool_name = "getARGOByDateRange" then simulateDateRangeSearch tc
  else
    Except.ok
      { call_id := tc.call_id
        success := false
        error := some ("Unknown tool: " ++ tc.tool_name) }

/-- `ARGOLLMAgent._execute_tool_calls` (llm_agent.py lines 261-279):
each call runs under a `try`, an exception becomes an
`MCPToolResponse(success=False, error=str(e))` and the loop goes on. -/
def executeToolCalls (calls : List MCPToolCall) : List MCPToolResponse :=
  calls.map (fun tc =>
    match simulateMcpCall tc with
    | Except.ok r => r
    | Except.error e => { call_id := tc.call_id, success := false, error := some e })

/- ----------------------------------------------------------------
Top-level query processing boundaries
(rag_pipeline.py lines 343-388, llm_agent.py lines 100-128)
---------------------------------------------------------------- -/

/-- The `RAGResponse` dataclass (the wall-clock `metadata` dict is not
modelled). -/
structure RAGResponse where
  query : String
  intent : QueryIntent
  results : List ARGOResult
  merged_data : MergedData
  natural_language_response : String
deriving DecidableEq, Repr

/-- `RAGPipeline.process_query` (rag_pipeline.py lines 343-388).  The
effectful steps are parameters returning `Except`: classification, the
three retrieval modes (selected on the classified intent, unknown
defaulting to semantic), and response generation.  The surrounding
`try/except` logs the exception and re-raises it (`raise`), so an
error propagates unchanged to the caller. -/
def ragProcessQuery (query : String)
    (classifyStep : String → Except String QueryContext)
    (sqlMode semanticMode hybridMode : QueryContext → Except String (List ARGOResult))
    (generateStep : String → MergedData → QueryContext → Except String String) :
    Except String RAGResponse :=
  match (do
    let context ← classifyStep query
    let results ←
      match context.intent with
      | QueryIntent.sql_query => sqlMode context
      | QueryIntent.semantic_search => semanticMode context
      | QueryIntent.hybrid => hybridMode context
      | QueryIntent.unknown => semanticMode context
    let merged := mergeResults results context
    let nl ← generateStep query merged context
    pure { query := query
           intent := context.intent
           results := results
           merged_data := merged
           natural_language_response := nl } : Except String RAGResponse) with
  | Except.ok r => Except.ok r
  | Except.error e => Except.error e

/-- `ARGOLLMAgent._generate_fallback_response` (llm_agent.py lines
237-239); the f-string contains no placeholder, so the text is fixed. -/
def fallbackResponse (_query : String) : String :=
  "🌊 I\x27m experiencing some technical difficulties accessing the oceanographic database. Please try again in a moment, or rephrase your question about ARGO float data."

/-- `ARGOLLMAgent.process_query` (llm_agent.py lines 100-128): the
whole body runs under `try`; `body` is the outcome of that body
(filter analysis, MCP calls, response generation), and any exception
is caught and replaced by the fallback response. -/
def agentProcessQuery (query : String) (body : Except String String) : String :=
  match body with
  | Except.ok response => response
  | Except.error _ => fallbackResponse query

/- ----------------------------------------------------------------
Backend calls and retry loop (mcp_client.py lines 36-143)
---------------------------------------------------------------- -/

/-- Outcome of a single HTTP request made by `MCPClient`: an HTTP 200
with a decoded body, a non-200 status with an error text, or an
`aiohttp.ClientError` (transient transport failure). -/
inductive AttemptOutcome where
  | success (data : String)
  | httpError (text : String)
  | netError (msg : String)
deriving DecidableEq, Repr

/-- `MCPClient.query_profiles` (mcp_client.py lines 36-78) on the
outcome of its single GET: a 200 returns the decoded body, a non-200
raises `Exception(f"API request failed: ...")`, and a transport error
propagates; the `except` clause logs and re-raises unchanged — there
is no retry here. -/
def query_profiles (outcome : AttemptOutcome) : Except String String :=
  match outcome with
  | AttemptOutcome.success d => Except.ok d
  | AttemptOutcome.httpError t => Except.error ("API request failed: " ++ t)
  | AttemptOutcome.netError m => Except.error m

/-- `MCPClient.get_stats` (mcp_client.py lines 80-95): same
single-attempt structure as `query_profiles`, with its own non-200
message; the `except` clause logs and re-raises unchanged. -/
def get_stats (outcome : AttemptOutcome) : Except String String :=
  match outcome with
  | AttemptOutcome.success d => Except.ok d
  | AttemptOutcome.httpError t => Except.error ("Stats request failed: " ++ t)
  | AttemptOutcome.netError m => Except.error m

/-- The `for attempt in range(self.config.max_retries)` loop of
`MCPClient.call_tool` (the MCP fallback POST path; routing to the
non-retried endpoints happens in `callTool` below): on success return
the decoded result together with the number of attempts made and the
list of backoff sleeps taken (`await asyncio.sleep(2 ** attempt)`
happens only in the `ClientError` branch and only when the attempt is
not the last); on the last attempt both error kinds raise; falling out
of the loop raises "Max retries exceeded". -/
def callToolGo (oc : ℕ → AttemptOutcome) (maxRetries : ℕ) (attempt : ℕ)
    (delays : List ℕ) : Except String (String × ℕ × List ℕ) :=
  if _h : attempt < maxRetries then
    match oc attempt with
    | AttemptOutcome.success d => Except.ok (d, attempt + 1, delays)
    | AttemptOutcome.httpError t =>
        if attempt = maxRetries - 1 then Except.error ("MCP call failed: " ++ t)
        else callToolGo oc maxRetries (attempt + 1) delays
    | AttemptOutcome.netError m =>
        if attempt = maxRetries - 1 then Except.error ("Network error: " ++ m)
        else callToolGo oc maxRetries (attempt + 1) (delays ++ [2 ^ attempt])
  else Except.error "Max retries exceeded"
termination_by maxRetries - attempt
decreasing_by all_goals omega

/-- `MCPClient.call_tool` (mcp_client.py lines 97-143) in full:
`queryARGO` is routed to `query_profiles` and `getStats` to
`get_stats` — a single HTTP attempt each, any failure re-raised, no
retry and no backoff — and only every other tool name reaches the MCP
fallback POST loop with its retry budget (`self.config.max_retries`,
default 3).  `oc n` is the outcome of the (n+1)-th HTTP attempt; the
result is instrumented with the number of attempts made and the
backoff sleeps taken (1 attempt, no sleeps, on the routed paths). -/
def callTool (toolName : String) (oc : ℕ → AttemptOutcome) (maxRetries : ℕ) :
    Except String (String × ℕ × List ℕ) :=
  if toolName = "queryARGO" then
    (query_profiles (oc 0)).map (fun d => (d, 1, []))
  else if toolName = "getStats" then
    (get_stats (oc 0)).map (fun d => (d, 1, []))
  else
    callToolGo oc maxRetries 0 []

/- ----------------------------------------------------------------
Spec-side descriptions and concrete inputs used by the verification
---------------------------------------------------------------- -/

/-- Per-entry effect of the whole semantic pass on a dict entry:
overlaid by the (unique) semantic record sharing its key, if any. -/
def entryOverlay (semanticResults : List ARGOResult) (p : String × ARGOResult) :
    String × ARGOResult :=
  match semanticResults.find? (fun r => r.id == p.1) with
  | some r => (p.1, applyOverlay p.2 r)
  | none => p

/-- A model response with one malformed `TOOL_CALL:` occurrence (its
JSON does not parse) followed by one well-formed occurrence that lacks
an explicit `call_id`. -/
def cexMatches : List ToolCallMatch :=
  [none, some { tool := some "queryARGO", arguments := some [], call_id := none }]

/-- A model response with a parse failure, a well-formed call with an
explicit id, and a well-formed call without one. -/
def wfMatches : List ToolCallMatch :=
  [ none
  , some { tool := some "queryARGO"
           arguments := some [("sql", ArgVal.str "SELECT 1")]
           call_id := some "abc" }
  , some { tool := some "retrieveARGO"
           arguments := some [("query", ArgVal.str "warm water")]
           call_id := none } ]

/-- A query whose lowercased text matches the first two SQL patterns
and no semantic pattern. -/
def qStrongSql : Query := ⟨fun s => (sqlPatterns.take 2).contains s⟩

/-- A query matching no pattern at all (both scores 0). -/
def qNoMatch : Query := ⟨fun _ => false⟩

/-- A structured-mode record with id `"X"` and surface temperature 28.5. -/
def sampleStructured : ARGOResult :=
  { id := "X", float_id := "1901393", cycle_number := 1
    location := { latitude := -5.2, longitude := 67.8 }
    timestamp := "2023-06-15T12:00:00Z"
    vars :=
      { temperature := { surface := some 28.5, thermocline_depth := some 120.3 }
        salinity := { surface := some 35.2, min_depth := some 85.2, max_depth := some 200.1 }
        stratification := some 0.0045 }
    metadata := { quality_flag := "A", data_mode := "R", source := "sql_query" } }

/-- A semantic-mode record with the same id `"X"` and similarity 0.92. -/
def sampleSemantic : ARGOResult :=
  { id := "X", float_id := "1901393", cycle_number := 1
    location := { latitude := -5.2, longitude := 67.8 }
    timestamp := "2023-06-15T12:00:00Z"
    vars :=
      { temperature := { surface := none, thermocline_depth := none }
        salinity := { surface := none, min_depth := none, max_depth := none }
        stratification := none }
    metadata := { quality_flag := "A", data_mode := "R", source := "semantic_search" }
    similarity_score := some 0.92
    rag_context := some "Semantic similarity: 0.920" }

/-- A second structured-mode record with a distinct id `"Y"`. -/
def sampleOther : ARGOResult :=
  { id := "Y", float_id := "1901394", cycle_number := 2
    location := { latitude := -8.1, longitude := 72.3 }
    timestamp := "2023-07-20T12:00:00Z"
    vars :=
      { temperature := { surface := some 29.2, thermocline_depth := some 95.7 }
        salinity := { surface := some 34.8, min_depth := some 75.4, max_depth := some 180.6 }
        stratification := some 0.0052 }
    metadata := { quality_flag := "A", data_mode := "R", source := "sql_query" } }

/-- Raw semantic profiles used to exercise the similarity-length
mismatch: two profiles against a single similarity value. -/
def wProfiles : List RawProfile :=
  [{ id := some "argo_a" }, { id := some "argo_b" }]

/-- The single-element similarities sequence for `wProfiles`. -/
def wSims : List ℚ := [0.5]

/-- Classification outcome used by the `ragProcessQuery` failure run. -/
def cexContext : QueryContext :=
  { original_query := "q", intent := QueryIntent.semantic_search, confidence := 0.5 }

/-- A classification step that succeeds with `cexContext`. -/
def cexClassify : String → Except String QueryContext :=
  fun _ => Except.ok cexContext

/-- A retrieval mode whose MCP call raises. -/
def cexFailRetrieve : QueryContext → Except String (List ARGOResult) :=
  fun _ => Except.error "MCP connection failed"

/-- A response-generation step that succeeds. -/
def cexGenerate : String → MergedData → QueryContext → Except String String :=
  fun _ _ _ => Except.ok "done"

/-- Attempt outcomes: transient network errors on the first two
attempts, success on the third. -/
def ocTwoFailures : ℕ → AttemptOutcome :=
  fun n =>
    if n = 0 then AttemptOutcome.netError "e0"
    else if n = 1 then AttemptOutcome.netError "e1"
    else AttemptOutcome.success "d"

/-- A location-search call whose arguments lack `latitude`. -/
def locCallMissingLat : MCPToolCall :=
  { tool_name := "getARGOByLocation"
    arguments := [("longitude", ArgVal.num 5)]
    call_id := "w5" }

/- ----------------------------------------------------------------
Theorems
---------------------------------------------------------------- -/

/-- Claim C7: for the empty result list, the summary statistics of the
result merger report a total profile count of 0, geographic bounds
lat_range [0,0] and lon_range [0,0], and None for min, max and mean of
both temperature and salinity. -/
theorem mergeResults_empty (context : QueryContext) :
    (mergeResults [] context).results_summary =
      { total_profiles := 0
        lat_range := (0, 0)
        lon_range := (0, 0)
        temperature := { min := none, max := none, mean := none }
        salinity := { min := none, max := none, mean := none } } := rfl

/-- Witness for C7 at a concrete context. -/
theorem mergeResults_empty_witness :
    (mergeResults [] cexContext).results_summary.total_profiles = 0 ∧
    (mergeResults [] cexContext).results_summary.lat_range = (0, 0) ∧
    (mergeResults [] cexContext).results_summary.temperature.mean = none := by
  have h := mergeResults_empty cexContext
  rw [h]
  exact ⟨rfl, rfl, rfl⟩

/-- Claim C6: when the model-fallback classification's completion call
fails in transport or returns output that is not parseable JSON,
`_llm_classify` returns (SEMANTIC_SEARCH, 0.5) and raises nothing. -/
theorem llmClassify_failOpen (reply : LLMReply)
    (h : reply = LLMReply.transportError ∨ reply = LLMReply.badJson) :
    llmClassify reply = (QueryIntent.semantic_search, 0.5) := by
  rcases h with h | h <;> rw [h] <;> rfl

/-- Witness for C6 at the transport-failure outcome. -/
theorem llmClassify_failOpen_witness :
    llmClassify LLMReply.transportError = (QueryIntent.semantic_search, 0.5) :=
  llmClassify_failOpen LLMReply.transportError (Or.inl rfl)

/-- Claim C2: when the pattern scores differ by more than 1 the
classifier returns the higher-scoring intent with confidence exactly
0.8 and does not invoke the model fallback; when they differ by at
most 1 it invokes `_llm_classify` exactly once and returns its
outcome. -/
theorem classifyIntent_margin (q : Query) (reply : LLMReply) :
    (1 < ((sqlScore q : ℤ) - (semanticScore q : ℤ)).natAbs →
      classifyIntent q reply =
        { intent :=
            if semanticScore q < sqlScore q then QueryIntent.sql_query
            else QueryIntent.semantic_search
          confidence := 0.8
          llmCalls := 0 }) ∧
    (((sqlScore q : ℤ) - (semanticScore q : ℤ)).natAbs ≤ 1 →
      classifyIntent q reply =
        { intent := (llmClassify reply).1
          confidence := (llmClassify reply).2
          llmCalls := 1 }) := by
  constructor
  · intro h
    unfold classifyIntent
    rw [if_neg (by omega)]
    by_cases hlt : semanticScore q < sqlScore q
    · rw [if_pos hlt, if_pos hlt]
    · rw [if_neg hlt, if_neg hlt]
  · intro h
    unfold classifyIntent
    rw [if_pos h]

/-- Witness for C2: a query matching two SQL patterns and no semantic
pattern is classified sql with confidence 0.8 and no model call; a
query matching nothing escalates to the model exactly once and takes
its answer. -/
theorem classifyIntent_margin_witness :
    classifyIntent qStrongSql LLMReply.badJson =
      { intent := QueryIntent.sql_query, confidence := 0.8, llmCalls := 0 } ∧
    classifyIntent qNoMatch (LLMReply.json (some "hybrid") (some 0.9)) =
      { intent := QueryIntent.hybrid, confidence := 0.9, llmCalls := 1 } := by
  constructor
  · have h := (classifyIntent_margin qStrongSql LLMReply.badJson).1 (by decide)
    rw [h, if_pos (by decide)]
  · have h := (classifyIntent_margin qNoMatch (LLMReply.json (some "hybrid") (some 0.9))).2
      (by decide)
    rw [h]
    rfl

/-- Counterexample to claim C9 as stated: a `queryARGO` call is routed
past the retry loop to `query_profiles`, so under transient transport
failures on the first two attempts and success on the third it fails
after a single attempt, re-raising the first transport error with no
retry and no backoff — not the claimed third-attempt success. -/
theorem callTool_queryARGO_single_attempt_cex :
    callTool "queryARGO" ocTwoFailures 3 = Except.error "e0" ∧
    callTool "queryARGO" ocTwoFailures 3 ≠ Except.ok ("d", 3, [1, 2]) := by
  constructor
  · rfl
  · intro hbad
    have h1 : callTool "queryARGO" ocTwoFailures 3 = Except.error "e0" := rfl
    rw [h1] at hbad
    exact Except.noConfusion hbad

/-- Claim C9 (amended): the retry budget of 3 with exponential backoff
applies only to tool calls routed to the MCP fallback POST — any tool
name other than `queryARGO` and `getStats`.  For those, transient
transport failures on the first two attempts followed by success on
the third return the third attempt's result after exactly 3 attempts,
with backoff sleeps 2^0 and 2^1 between consecutive attempts.  A
`queryARGO` or `getStats` call makes a single attempt and re-raises a
transient transport failure unchanged, with no retry. -/
theorem callTool_retry_routing :
    (∀ (toolName : String) (oc : ℕ → AttemptOutcome) (d m0 m1 : String),
        toolName ≠ "queryARGO" → toolName ≠ "getStats" →
        oc 0 = AttemptOutcome.netError m0 →
        oc 1 = AttemptOutcome.netError m1 →
        oc 2 = AttemptOutcome.success d →
        callTool toolName oc 3 = Except.ok (d, 3, [1, 2])) ∧
    (∀ (oc : ℕ → AttemptOutcome) (m : String) (maxRetries : ℕ),
        oc 0 = AttemptOutcome.netError m →
        callTool "queryARGO" oc maxRetries = Except.error m) ∧
    (∀ (oc : ℕ → AttemptOutcome) (m : String) (maxRetries : ℕ),
        oc 0 = AttemptOutcome.netError m →
        callTool "getStats" oc maxRetries = Except.error m) := by
  refine ⟨?_, ?_, ?_⟩
  · intro toolName oc d m0 m1 hq hs h0 h1 h2
    unfold callTool
    rw [if_neg hq, if_neg hs]
    rw [callToolGo]
    simp only [h0]
    norm_num
    rw [callToolGo]
    simp only [h1]
    norm_num
    rw [callToolGo]
    simp only [h2]
    norm_num
  · intro oc m maxRetries h0
    unfold callTool
    rw [if_pos rfl, h0]
    rfl
  · intro oc m maxRetries h0
    unfold callTool
    rw [if_neg (by decide), if_pos rfl, h0]
    rfl

/-- Witness for C9 (amended) at a concrete outcome schedule: a
fallback-routed tool succeeds on the third attempt after backoff,
while the same schedule makes `queryARGO` and `getStats` fail at
once. -/
theorem callTool_retry_routing_witness :
    callTool "retrieveARGO" ocTwoFailures 3 = Except.ok ("d", 3, [1, 2]) ∧
    callTool "queryARGO" ocTwoFailures 3 = Except.error "e0" ∧
    callTool "getStats" ocTwoFailures 3 = Except.error "e0" :=
  ⟨callTool_retry_routing.1 "retrieveARGO" ocTwoFailures "d" "e0" "e1"
      (by decide) (by decide) rfl rfl rfl,
   callTool_retry_routing.2.1 ocTwoFailures "e0" 3 rfl,
   callTool_retry_routing.2.2 ocTwoFailures "e0" 3 rfl⟩

/-- Counterexample to claim C8 as stated: `RAGPipeline.process_query`
does not convert an internal failure into an apology response — its
`except` clause logs and re-raises, so a failing semantic retrieval
propagates the exception to the caller. -/
theorem ragProcessQuery_propagates_cex :
    ragProcessQuery "q" cexClassify cexFailRetrieve cexFailRetrieve cexFailRetrieve
        cexGenerate =
      Except.error "MCP connection failed" := rfl

/-- Claim C8 (amended): the LLM agent's `process_query` catches every
internal exception and returns the fixed fallback apology, while
`RAGPipeline.process_query` re-raises internal exceptions to its
caller unchanged. -/
theorem processQuery_boundaries :
    (∀ (query e : String), agentProcessQuery query (Except.error e) = fallbackResponse query) ∧
    (∀ (query e : String)
       (sqlMode semanticMode hybridMode : QueryContext → Except String (List ARGOResult))
       (generateStep : String → MergedData → QueryContext → Except String String),
       ragProcessQuery query (fun _ => Except.error e) sqlMode semanticMode hybridMode
           generateStep =
         Except.error e) := by
  refine ⟨fun query e => rfl, fun query e s m h g => rfl⟩

/-- Counterexample to claim C5 as stated: dispatch performs no
argument validation — a location search without `latitude` raises a
`KeyError` out of `_simulate_mcp_call` instead of returning a failed
result, and a structured query with no arguments at all succeeds
(its simulator never reads the arguments). -/
theorem simulateMcpCall_no_validation_cex :
    simulateMcpCall { tool_name := "getARGOByLocation", arguments := [], call_id := "c0" } =
      Except.error "KeyError: latitude" ∧
    simulateMcpCall { tool_name := "queryARGO", arguments := [], call_id := "c1" } =
      Except.ok { call_id := "c1", success := true, data := some SimData.queryData,
                  error := none } := by
  exact ⟨rfl, rfl⟩

/-- Claim C5 (amended): dispatch does not pre-validate required
arguments; for a location search missing `latitude` the missing-key
exception escapes `_simulate_mcp_call`, and it is the per-call
`try/except` of `_execute_tool_calls` that converts it into a
`ToolResult` with success=false, so the failure does not raise out of
the execute layer. -/
theorem executeToolCalls_missing_arg (tc : MCPToolCall)
    (hname : tc.tool_name = "getARGOByLocation")
    (hmissing : lookupArg tc.arguments "latitude" = none) :
    simulateMcpCall tc = Except.error "KeyError: latitude" ∧
    executeToolCalls [tc] =
      [{ call_id := tc.call_id, success := false, data := none,
         error := some "KeyError: latitude" }] := by
  have hsim : simulateMcpCall tc = Except.error "KeyError: latitude" := by
    unfold simulateMcpCall
    rw [hname]
    simp [simulateLocationSearch, hmissing]
  exact ⟨hsim, by simp [executeToolCalls, hsim]⟩

/-- Witness for C5 (amended) at a concrete call with only a longitude. -/
theorem executeToolCalls_missing_arg_witness :
    simulateMcpCall locCallMissingLat = Except.error "KeyError: latitude" ∧
    executeToolCalls [locCallMissingLat] =
      [{ call_id := "w5", success := false, data := none,
         error := some "KeyError: latitude" }] :=
  executeToolCalls_missing_arg locCallMissingLat rfl rfl

/-- When every parsed occurrence carries both required keys, the
extraction loop never hits the uncaught `KeyError` and returns exactly
the well-formed calls, whatever the start index. -/
lemma extractFrom_eq_wellFormedFrom (ms : List ToolCallMatch) :
    ∀ i : ℕ, ms.all noKeyError = true →
      extractFrom i ms = Except.ok (wellFormedFrom i ms) := by
  induction ms with
  | nil => intro i _; rfl
  | cons m rest ih =>
      intro i h
      rw [List.all_cons, Bool.and_eq_true] at h
      obtain ⟨hm, hrest⟩ := h
      cases m with
      | none =>
          simpa [extractFrom, wellFormedFrom] using ih (i + 1) hrest
      | some obj =>
          rw [noKeyError, Bool.and_eq_true, Option.isSome_iff_exists,
            Option.isSome_iff_exists] at hm
          obtain ⟨⟨t, ht⟩, a, ha⟩ := hm
          simp [extractFrom, wellFormedFrom, ht, ha, ih (i + 1) hrest, Except.map]

/-- Counterexample to claim C1 as stated: with one malformed
occurrence before a valid call lacking an explicit id, the synthesized
id is `call_1` — the index among all marker matches — not `call_0`,
the position among the valid calls alone. -/
theorem extractToolCalls_positional_cex :
    extractToolCalls cexMatches =
      Except.ok [{ tool_name := "queryARGO", arguments := [], call_id := "call_1" }] ∧
    extractToolCalls cexMatches ≠
      Except.ok [{ tool_name := "queryARGO", arguments := [], call_id := "call_0" }] := by
  constructor
  · rfl
  · intro hbad
    have h1 : extractToolCalls cexMatches =
        Except.ok [{ tool_name := "queryARGO", arguments := [], call_id := "call_1" }] := rfl
    rw [h1] at hbad
    simp at hbad

/-- Claim C1 (amended): on input whose malformed occurrences are JSON
parse failures (and every parsed object carries both `tool` and
`arguments`), extraction returns exactly the well-formed calls in
order of appearance, skipping each parse failure without aborting, and
a call without an explicit id gets the synthesized id `call_i` where
`i` is its zero-based index among all marker occurrences, malformed
ones included. -/
theorem extractToolCalls_skips_malformed (ms : List ToolCallMatch)
    (h : ms.all noKeyError = true) :
    extractToolCalls ms = Except.ok (wellFormedCalls ms) :=
  extractFrom_eq_wellFormedFrom ms 0 h

/-- Witness for C1 (amended): a parse failure, then a call with an
explicit id, then a call whose id is synthesized as `call_2`. -/
theorem extractToolCalls_skips_malformed_witness :
    extractToolCalls wfMatches =
      Except.ok
        [ { tool_name := "queryARGO", arguments := [("sql", ArgVal.str "SELECT 1")],
            call_id := "abc" }
        , { tool_name := "retrieveARGO", arguments := [("query", ArgVal.str "warm water")],
            call_id := "call_2" } ] := by
  have h := extractToolCalls_skips_malformed wfMatches (by decide)
  rw [h]
  rfl

/-- The semantic converter emits one record per profile, regardless of
how many similarity values are available. -/
lemma convertSemanticFrom_length (similarities : List ℚ) :
    ∀ (ps : List RawProfile) (i : ℕ),
      (convertSemanticFrom similarities i ps).length = ps.length := by
  intro ps
  induction ps with
  | nil => intro i; rfl
  | cons p rest ih =>
      intro i
      simp [convertSemanticFrom, ih (i + 1)]

/-- Element-wise description of the semantic converter's output. -/
lemma convertSemanticFrom_getD (similarities : List ℚ) :
    ∀ (ps : List RawProfile) (i k : ℕ), k < ps.length →
      (convertSemanticFrom similarities i ps).getD k default =
        profileToResult "semantic_search" (ps.getD k default)
          (some (similarities.getD (i + k) 0))
          (some ("Semantic similarity: " ++ formatFixed3 (similarities.getD (i + k) 0))) := by
  intro ps
  induction ps with
  | nil => intro i k hk; simp at hk
  | cons p rest ih =>
      intro i k hk
      cases k with
      | zero => simp [convertSemanticFrom]
      | succ k =>
          have hk' : k < rest.length := by simpa using hk
          have h := ih (i + 1) k hk'
          simp only [convertSemanticFrom, List.getD_cons_succ]
          rw [h]
          have : i + 1 + k = i + (k + 1) := by omega
          rw [this]

/-- `f"...:.3f"` applied to 0.0 renders "0.000". -/
lemma formatFixed3_zero : formatFixed3 0 = "0.000" := by
  have h : round ((0 : ℚ) * 1000) = 0 := by norm_num
  simp only [formatFixed3, h]
  rfl

/-- Claim C10: when the profiles sequence is longer than the parallel
similarities sequence, normalization still emits exactly one record
per profile, and every profile past the end of the similarities
sequence gets similarity_score 0.0 with context note
"Semantic similarity: 0.000"; the mismatch raises nothing. -/
theorem convertSemanticResults_mismatch (profiles : List RawProfile) (sims : List ℚ)
    (_h : sims.length < profiles.length) :
    (convertSemanticResults profiles sims).length = profiles.length ∧
    ∀ k, sims.length ≤ k → k < profiles.length →
      ((convertSemanticResults profiles sims).getD k default).similarity_score = some 0 ∧
      ((convertSemanticResults profiles sims).getD k default).rag_context =
        some "Semantic similarity: 0.000" := by
  constructor
  · exact convertSemanticFrom_length sims profiles 0
  · intro k hk hklt
    have hg := convertSemanticFrom_getD sims profiles 0 k hklt
    rw [Nat.zero_add] at hg
    have hd : sims.getD k 0 = 0 := List.getD_eq_default sims 0 hk
    rw [hd] at hg
    unfold convertSemanticResults
    rw [hg, formatFixed3_zero]
    exact ⟨rfl, rfl⟩

/-- Witness for C10: two profiles against one similarity value — the
second record gets similarity 0 and the 0.000 context note. -/
theorem convertSemanticResults_mismatch_witness :
    (convertSemanticResults wProfiles wSims).length = wProfiles.length ∧
    ((convertSemanticResults wProfiles wSims).getD 1 default).similarity_score = some 0 ∧
    ((convertSemanticResults wProfiles wSims).getD 1 default).rag_context =
      some "Semantic similarity: 0.000" := by
  have H := convertSemanticResults_mismatch wProfiles wSims (by norm_num [wProfiles, wSims])
  exact ⟨H.1, (H.2 1 (by norm_num [wSims]) (by norm_num [wProfiles])).1,
    (H.2 1 (by norm_num [wSims]) (by norm_num [wProfiles])).2⟩

/-- Keys distribute over dict append. -/
lemma dictKeys_append (m1 m2 : ResultDict) :
    dictKeys (m1 ++ m2) = dictKeys m1 ++ dictKeys m2 := by
  simp [dictKeys]

/-- The overlay pass of `semInsert` does not change the keys. -/
lemma dictKeys_overlayMap (m : ResultDict) (r : ARGOResult) :
    dictKeys (m.map (fun p => if p.1 = r.id then (p.1, applyOverlay p.2 r) else p)) =
      dictKeys m := by
  simp only [dictKeys, List.map_map]
  apply List.map_congr_left
  intro p _
  by_cases h : p.1 = r.id <;> simp [h]

/-- Inserting SQL records with fresh, pairwise-distinct ids appends
them in order. -/
lemma foldl_dictInsert_eq (rs : List ARGOResult) :
    ∀ m : ResultDict, (rs.map ARGOResult.id).Nodup →
      (∀ r ∈ rs, r.id ∉ dictKeys m) →
      rs.foldl (fun m r => dictInsert m r.id r) m = m ++ rs.map (fun r => (r.id, r)) := by
  induction rs with
  | nil => intro m _ _; simp
  | cons r rest ih =>
      intro m hnd hdis
      simp only [List.map_cons, List.nodup_cons] at hnd
      have hne : r.id ∉ dictKeys m := hdis r (List.mem_cons_self r rest)
      have step : dictInsert m r.id r = m ++ [(r.id, r)] := by
        simp [dictInsert, hne]
      rw [List.foldl_cons, step, ih (m ++ [(r.id, r)]) hnd.2]
      · simp
      · intro r' hr'
        rw [dictKeys_append]
        simp only [List.mem_append]
        rintro (hmem | hmem)
        · exact hdis r' (List.mem_cons_of_mem r hr') hmem
        · simp only [dictKeys, List.map_cons, List.map_nil, List.mem_singleton] at hmem
          exact hnd.1 (hmem ▸ List.mem_map_of_mem ARGOResult.id hr')

/-- `entryOverlay` over the empty semantic list is the identity. -/
lemma entryOverlay_nil (p : String × ARGOResult) : entryOverlay [] p = p := rfl

/-- The whole semantic pass of the hybrid merge, described at once:
existing entries get overlaid by the unique semantic record sharing
their key, and the semantic records with new ids are appended in
order.  Requires the semantic ids to be pairwise distinct. -/
lemma foldl_semInsert_eq (sem : List ARGOResult) :
    ∀ m : ResultDict, (sem.map ARGOResult.id).Nodup →
      sem.foldl semInsert m =
        m.map (entryOverlay sem) ++
          (sem.filter (fun r => decide (r.id ∉ dictKeys m))).map (fun r => (r.id, r)) := by
  induction sem with
  | nil =>
      intro m _
      simp only [List.foldl_nil, List.filter_nil, List.map_nil, List.append_nil]
      rw [List.map_congr_left (fun p _ => entryOverlay_nil p)]
      exact (List.map_id' m).symm
  | cons r rest ih =>
      intro m hnd
      simp only [List.map_cons, List.nodup_cons] at hnd
      obtain ⟨hrid, hnd_rest⟩ := hnd
      have hrest_none : ∀ x ∈ rest, (x.id == r.id) = false := by
        intro x hx
        rw [beq_eq_false_iff_ne]
        intro hxe
        exact hrid (hxe ▸ List.mem_map_of_mem ARGOResult.id hx)
      have hfind : rest.find? (fun x => x.id == r.id) = none :=
        List.find?_eq_none.mpr (fun x hx => by simp [hrest_none x hx])
      rw [List.foldl_cons]
      by_cases hin : r.id ∈ dictKeys m
      · have hsem : semInsert m r =
            m.map (fun p => if p.1 = r.id then (p.1, applyOverlay p.2 r) else p) := by
          simp [semInsert, hin]
        rw [hsem, ih _ hnd_rest, dictKeys_overlayMap, List.map_map]
        have hfirst :
            m.map (entryOverlay rest ∘ fun p =>
                if p.1 = r.id then (p.1, applyOverlay p.2 r) else p) =
              m.map (entryOverlay (r :: rest)) := by
          apply List.map_congr_left
          rintro ⟨k, v⟩ _
          by_cases hp : k = r.id
          · subst hp
            simp [entryOverlay, hfind, List.find?_cons]
          · simp [entryOverlay, hp, List.find?_cons, Ne.symm hp]
        have hfilter :
            (r :: rest).filter (fun x => decide (x.id ∉ dictKeys m)) =
              rest.filter (fun x => decide (x.id ∉ dictKeys m)) := by
          rw [List.filter_cons_of_neg (by simp [hin])]
        rw [hfirst, hfilter]
      · have hsem : semInsert m r = m ++ [(r.id, r)] := by
          simp [semInsert, hin]
        rw [hsem, ih _ hnd_rest, List.map_append]
        simp only [dictKeys_append, show dictKeys [(r.id, r)] = [r.id] from rfl]
        have hsingle : ([(r.id, r)] : ResultDict).map (entryOverlay rest) = [(r.id, r)] := by
          simp [entryOverlay, hfind]
        have hfirst : m.map (entryOverlay rest) = m.map (entryOverlay (r :: rest)) := by
          apply List.map_congr_left
          rintro ⟨k, v⟩ hp
          have hpne : k ≠ r.id := by
            intro he
            exact hin (he ▸ List.mem_map_of_mem Prod.fst hp)
          simp [entryOverlay, List.find?_cons, Ne.symm hpne]
        have hfilter :
            rest.filter (fun x => decide (x.id ∉ dictKeys m ++ [r.id])) =
              rest.filter (fun x => decide (x.id ∉ dictKeys m)) := by
          apply List.filter_congr
          intro x hx
          have hxne : x.id ≠ r.id := by
            intro hxe
            exact hrid (hxe ▸ List.mem_map_of_mem ARGOResult.id hx)
          simp [List.mem_append, hxne]
        have hlast :
            (r :: rest).filter (fun x => decide (x.id ∉ dictKeys m)) =
              r :: rest.filter (fun x => decide (x.id ∉ dictKeys m)) := by
          rw [List.filter_cons_of_pos (by simp [hin])]
        rw [hsingle, hfirst, hfilter, hlast]
        simp

/-- The overlay never changes a record's id. -/
lemma overlayFor_id (sem : List ARGOResult) (s : ARGOResult) :
    (overlayFor sem s).id = s.id := by
  unfold overlayFor
  cases h : sem.find? (fun r => r.id == s.id) <;> rfl

/-- With pairwise-distinct ids, `find?` on a member's id returns that
member. -/
lemma find?_eq_of_nodup (sem : List ARGOResult) (r : ARGOResult)
    (h2 : (sem.map ARGOResult.id).Nodup) (hr : r ∈ sem) :
    sem.find? (fun x => x.id == r.id) = some r := by
  induction sem with
  | nil => cases hr
  | cons a rest ih =>
      simp only [List.map_cons, List.nodup_cons] at h2
      rcases List.mem_cons.mp hr with rfl | hr'
      · rw [List.find?_cons_of_pos _ (by simp)]
      · have hane : (a.id == r.id) = false := by
          rw [beq_eq_false_iff_ne]
          intro he
          exact h2.1 (he ▸ List.mem_map_of_mem ARGOResult.id hr')
        rw [List.find?_cons_of_neg _ (by simp [hane])]
        exact ih h2.2 hr'

/-- Closed form of `_execute_hybrid_mode`: the SQL records in their
original order, each overlaid by its matching semantic record, then
the id-wise new semantic records in their original order.  Requires
pairwise-distinct ids within each backend's result list (ids are the
backend's primary keys). -/
lemma executeHybridMode_spec (sqlResults semanticResults : List ARGOResult)
    (h1 : (sqlResults.map ARGOResult.id).Nodup)
    (h2 : (semanticResults.map ARGOResult.id).Nodup) :
    executeHybridMode sqlResults semanticResults =
      sqlResults.map (overlayFor semanticResults) ++ semOnly sqlResults semanticResults := by
  unfold executeHybridMode
  have hm0 : sqlResults.foldl (fun m r => dictInsert m r.id r) ([] : ResultDict) =
      sqlResults.map (fun r => (r.id, r)) := by
    have h := foldl_dictInsert_eq sqlResults [] h1 (by intro r _; simp [dictKeys])
    simpa using h
  rw [hm0, foldl_semInsert_eq semanticResults _ h2]
  have hkeys : dictKeys (sqlResults.map (fun r => (r.id, r))) =
      sqlResults.map ARGOResult.id := by
    simp [dictKeys, List.map_map, Function.comp]
  rw [hkeys, List.map_append, List.map_map]
  congr 1
  · rw [List.map_map]
    apply List.map_congr_left
    intro s _
    simp only [Function.comp, entryOverlay, overlayFor]
    cases hf : semanticResults.find? (fun r => r.id == s.id) <;> rfl
  · rw [List.map_map]
    rw [show (Prod.snd ∘ fun r : ARGOResult => (r.id, r)) = fun r => r from rfl]
    rw [List.map_id']
    rfl

/-- Claim C4: for every pair of backend result lists with
pairwise-distinct ids, the hybrid merge emits exactly one record per
unique id (its ids are pairwise distinct, so merging a result set with
itself duplicates nothing), in insertion order: the structured records
first in their original order, then the id-wise new semantic records
in their original order, never sorted by score; its length is the
number of distinct ids. -/
theorem executeHybridMode_order (sqlResults semanticResults : List ARGOResult)
    (h1 : (sqlResults.map ARGOResult.id).Nodup)
    (h2 : (semanticResults.map ARGOResult.id).Nodup) :
    executeHybridMode sqlResults semanticResults =
      sqlResults.map (overlayFor semanticResults) ++ semOnly sqlResults semanticResults ∧
    ((executeHybridMode sqlResults semanticResults).map ARGOResult.id).Nodup ∧
    (executeHybridMode sqlResults semanticResults).length =
      sqlResults.length + (semOnly sqlResults semanticResults).length := by
  have hspec := executeHybridMode_spec sqlResults semanticResults h1 h2
  refine ⟨hspec, ?_, ?_⟩
  · rw [hspec, List.map_append, List.map_map]
    have hids : sqlResults.map (ARGOResult.id ∘ overlayFor semanticResults) =
        sqlResults.map ARGOResult.id :=
      List.map_congr_left (fun s _ => overlayFor_id semanticResults s)
    rw [hids, List.nodup_append]
    refine ⟨h1, ?_, ?_⟩
    · exact List.Nodup.sublist
        (List.Sublist.map ARGOResult.id (List.filter_sublist semanticResults)) h2
    · intro x hx1 hx2
      obtain ⟨t, htmem, rfl⟩ := List.mem_map.mp hx2
      have hfilt := List.of_mem_filter htmem
      exact (of_decide_eq_true hfilt) hx1
  · rw [hspec]
    simp

/-- Witness for C4: merging a two-record structured result set with
itself keeps exactly the two records, in order, with distinct ids. -/
theorem executeHybridMode_order_witness :
    executeHybridMode [sampleStructured, sampleOther] [sampleStructured, sampleOther] =
      [sampleStructured, sampleOther].map
          (overlayFor [sampleStructured, sampleOther]) ++
        semOnly [sampleStructured, sampleOther] [sampleStructured, sampleOther] ∧
    ((executeHybridMode [sampleStructured, sampleOther]
        [sampleStructured, sampleOther]).map ARGOResult.id).Nodup ∧
    (executeHybridMode [sampleStructured, sampleOther]
        [sampleStructured, sampleOther]).length =
      [sampleStructured, sampleOther].length +
        (semOnly [sampleStructured, sampleOther] [sampleStructured, sampleOther]).length :=
  executeHybridMode_order [sampleStructured, sampleOther] [sampleStructured, sampleOther]
    (by simp [sampleStructured, sampleOther]) (by simp [sampleStructured, sampleOther])

/-- Claim C3: when a structured-mode record and a semantic-mode record
share an id, the merged record for that id is exactly the structured
record with only `similarity_score` and `rag_context` taken from the
semantic record — every other structured field is unchanged. -/
theorem executeHybridMode_overlay (sqlResults semanticResults : List ARGOResult)
    (s r : ARGOResult)
    (h1 : (sqlResults.map ARGOResult.id).Nodup)
    (h2 : (semanticResults.map ARGOResult.id).Nodup)
    (hs : s ∈ sqlResults) (hr : r ∈ semanticResults) (hid : r.id = s.id) :
    ({ s with similarity_score := r.similarity_score,
              rag_context := r.rag_context } : ARGOResult)
        ∈ executeHybridMode sqlResults semanticResults ∧
    ∀ t ∈ executeHybridMode sqlResults semanticResults, t.id = s.id →
      t = { s with similarity_score := r.similarity_score,
                   rag_context := r.rag_context } := by
  have hspec := executeHybridMode_spec sqlResults semanticResults h1 h2
  have hover : overlayFor semanticResults s = applyOverlay s r := by
    unfold overlayFor
    rw [← hid, find?_eq_of_nodup semanticResults r h2 hr]
  constructor
  · rw [hspec]
    apply List.mem_append_left
    have hmem := List.mem_map_of_mem (overlayFor semanticResults) hs
    rw [hover] at hmem
    exact hmem
  · intro t ht htid
    rw [hspec] at ht
    rcases List.mem_append.mp ht with hmem | hmem
    · obtain ⟨s', hs', rfl⟩ := List.mem_map.mp hmem
      have hs'id : s'.id = s.id :=
        (overlayFor_id semanticResults s').symm.trans htid
      have hss : s' = s := List.inj_on_of_nodup_map h1 hs' hs hs'id
      rw [hss, hover]
      rfl
    · exfalso
      have hfilt := List.of_mem_filter hmem
      exact (of_decide_eq_true hfilt) (htid ▸ List.mem_map_of_mem ARGOResult.id hs)

/-- Witness for C3: structured id "X" with temperature 28.5 merged
with semantic id "X" carrying similarity 0.92. -/
theorem executeHybridMode_overlay_witness :
    ({ sampleStructured with
        similarity_score := some 0.92,
        rag_context := some "Semantic similarity: 0.920" } : ARGOResult)
        ∈ executeHybridMode [sampleStructured, sampleOther] [sampleSemantic] ∧
    ∀ t ∈ executeHybridMode [sampleStructured, sampleOther] [sampleSemantic],
      t.id = sampleStructured.id →
      t = { sampleStructured with
            similarity_score := some 0.92,
            rag_context := some "Semantic similarity: 0.920" } :=
  executeHybridMode_overlay [sampleStructured, sampleOther] [sampleSemantic]
    sampleStructured sampleSemantic
    (by simp [sampleStructured, sampleOther]) (by simp [sampleSemantic])
    (by simp) (by simp) rfl
